import Mathlib

/-!
Verification development for the movie-info-fetcher repository.

The Lean definitions below are a shallow embedding of the Python sources:

* src/csv_handler/parser.py : find_column_indices
* src/search/youtube.py     : search_youtube
* src/search/tmdb.py        : parse_multiple_directors, search_single_director,
                              get_director_popular_movies, format_related_films
* src/core/processor.py     : update_csv_with_trailers

Strings are modelled as Lean strings (lists of characters); the whitespace
class is the ASCII part of the class used by Python str.strip and by the
regular expression class used in the sources.  Network effects are modelled
by explicit oracles: the HTTP response of the YouTube scrape, a credits
lookup function for TMDb, and boolean/function fields of an environment
record for the file-update driver.  A file write is modelled by the
`written` field of the driver result: the write happens if and only if the
field is `some`, so the input file bytes are unchanged exactly when the
field is `none`.
-/

/-- Whitespace characters (ASCII part of the class stripped by Python
str.strip and matched by the backslash-s class in the re module). -/
def isPyWs (c : Char) : Bool :=
  c == ' ' || c == '\t' || c == '\n' || c == '\r' || c == '\x0b' || c == '\x0c'

/-- Python str.strip on character lists: drop whitespace at both ends. -/
def pyStrip (cs : List Char) : List Char :=
  ((cs.dropWhile isPyWs).reverse.dropWhile isPyWs).reverse

/-- Python str.strip on strings. -/
def pyStripStr (s : String) : String :=
  String.mk (pyStrip s.data)

/-- Python str.lower (ASCII model: the sources compare ASCII keywords). -/
def pyLower (s : String) : String :=
  String.mk (s.data.map Char.toLower)

/-- Python substring membership test: needle occurs contiguously in hay. -/
def isSubstring (needle : List Char) : List Char → Bool
  | [] => needle.isEmpty
  | c :: rest => needle.isPrefixOf (c :: rest) || isSubstring needle rest

/-! ## src/search/youtube.py -/

/-- The marker preceding a video identifier in the scraped page,
from the pattern in src/search/youtube.py line 25. -/
def watchMarker : List Char :=
  "watch?v=".data

/-- The token after the marker: exactly 11 non-whitespace characters,
as demanded by the regular expression in src/search/youtube.py line 25. -/
def take_id (cs : List Char) : Option (List Char) :=
  let cand := cs.take 11
  if cand.length == 11 && cand.all (fun c => !(isPyWs c)) then some cand else none

/-- Leftmost match of the video-identifier pattern, i.e. the first element
of re.findall at src/search/youtube.py line 25: scan positions left to
right; at each position require the marker followed by 11 non-whitespace
characters; on failure move one position right. -/
def find_video_id : List Char → Option (List Char)
  | [] => none
  | c :: cs =>
    if watchMarker.isPrefixOf (c :: cs) then
      match take_id ((c :: cs).drop 8) with
      | some vid => some vid
      | none => find_video_id cs
    else find_video_id cs

/-- Outcome of the single outbound request in search_youtube.  `exn` is a
requests.RequestException raised before a usable response exists (connection
failure or timeout); `ok status body` is a received response.  The
raise_for_status call turns a status of 400 or above into a
RequestException as well. -/
inductive HttpResult where
  | exn
  | ok (status : Nat) (body : List Char)

/-- search_youtube from src/search/youtube.py lines 10-36: on any
RequestException return none; otherwise return the first matched
11-character identifier rendered as a canonical watch URL, or none when
the pattern does not match.  The function is total, reflecting that the
Python code catches every failure of the request and never raises. -/
def search_youtube : HttpResult → Option String
  | .exn => none
  | .ok status body =>
    if 400 ≤ status then none
    else
      match find_video_id body with
      | some vid => some (String.mk ("https://www.youtube.com/watch?v=".data ++ vid))
      | none => none

/-! ## src/csv_handler/parser.py -/

def title_keywords : List String := ["title", "movie", "film", "name"]

def director_keywords : List String := ["director", "directed", "filmmaker"]

def year_keywords : List String := ["year", "date", "released"]

def trailer_keywords : List String := ["trailer", "link", "url", "video"]

/-- col_name.lower().strip() from src/csv_handler/parser.py line 31. -/
def normalize_col (s : String) : List Char :=
  pyStrip (s.data.map Char.toLower)

/-- any(keyword in col_lower for keyword in keywords). -/
def matches_any (kws : List String) (colLower : List Char) : Bool :=
  kws.any (fun k => isSubstring k.data colLower)

/-- The scanning loop of find_column_indices, src/csv_handler/parser.py
lines 30-40: an if/elif chain that assigns the current index to the first
not-yet-assigned role whose keyword set matches the normalized name. -/
def fci_go : Nat → List String → Option Nat → Option Nat → Option Nat → Option Nat →
    Option Nat × Option Nat × Option Nat × Option Nat
  | _, [], t, d, y, tr => (t, d, y, tr)
  | i, c :: rest, t, d, y, tr =>
    let cl := normalize_col c
    if t.isNone && matches_any title_keywords cl then
      fci_go (i + 1) rest (some i) d y tr
    else if d.isNone && matches_any director_keywords cl then
      fci_go (i + 1) rest t (some i) y tr
    else if y.isNone && matches_any year_keywords cl then
      fci_go (i + 1) rest t d (some i) tr
    else if tr.isNone && matches_any trailer_keywords cl then
      fci_go (i + 1) rest t d y (some i)
    else
      fci_go (i + 1) rest t d y tr

/-- find_column_indices from src/csv_handler/parser.py lines 20-42.  Note
that the source returns a 4-tuple (title, director, year, trailer): there
is no related-films role and no {related, similar} keyword set. -/
def find_column_indices (header : List String) :
    Option Nat × Option Nat × Option Nat × Option Nat :=
  fci_go 0 header none none none none

/-- The value returned by find_column_indices viewed as the sequence of
values produced when the caller iterates over the returned tuple. -/
def find_column_indices_list (header : List String) : List (Option Nat) :=
  [(find_column_indices header).1, (find_column_indices header).2.1,
   (find_column_indices header).2.2.1, (find_column_indices header).2.2.2]

/-- Python tuple unpacking into five names, as performed by
src/core/processor.py line 52: succeeds exactly on a five-element
sequence, otherwise raises ValueError (modelled as none). -/
def unpack5 {α : Type} (l : List α) : Option (α × α × α × α × α) :=
  match l with
  | [a, b, c, d, e] => some (a, b, c, d, e)
  | _ => none

/-! ## src/search/tmdb.py -/

/-- One match attempt, at the current position, of the separator pattern of
parse_multiple_directors (src/search/tmdb.py line 39): the alternatives
are tried in order (ampersand/plus/slash with optional surrounding
whitespace; the word and with mandatory surrounding whitespace; comma with
optional surrounding whitespace).  Returns the remainder after the matched
span, or none when no alternative matches here. -/
def matchSep (cs : List Char) : Option (List Char) :=
  let ws := cs.takeWhile isPyWs
  let r := cs.dropWhile isPyWs
  match r with
  | [] => none
  | c :: r2 =>
    if c == '&' || c == '+' || c == '/' then
      some (r2.dropWhile isPyWs)
    else if !ws.isEmpty && ([ 'a', 'n', 'd' ].isPrefixOf r)
        && !((r.drop 3).takeWhile isPyWs).isEmpty then
      some ((r.drop 3).dropWhile isPyWs)
    else if c == ',' then
      some (r2.dropWhile isPyWs)
    else
      none

/-- re.sub of the separator pattern by a comma, scanning left to right and
replacing each non-overlapping match (fuel-indexed; every match consumes at
least one character, so fuel equal to the input length suffices). -/
def normSep : Nat → List Char → List Char
  | 0, _ => []
  | _, [] => []
  | fuel + 1, c :: cs =>
    match matchSep (c :: cs) with
    | some rest => ',' :: normSep fuel rest
    | none => c :: normSep fuel cs

/-- Python str.split on a comma (keeps empty fields). -/
def splitComma : List Char → List (List Char)
  | [] => [[]]
  | c :: cs =>
    if c == ',' then
      [] :: splitComma cs
    else
      match splitComma cs with
      | t :: ts => (c :: t) :: ts
      | [] => [[ c ]]

/-- parse_multiple_directors from src/search/tmdb.py lines 22-48: empty or
blank input gives []; otherwise normalize every separator to a comma,
split, strip each token, and keep tokens of length greater than one. -/
def parse_multiple_directors (s : String) : List String :=
  let stripped := pyStrip s.data
  if stripped.isEmpty then []
  else
    (((splitComma (normSep stripped.length stripped)).map pyStrip).filter
      (fun n => decide (1 < n.length))).map (fun n => String.mk n)

/-- A crew entry of the TMDb movie-credits response, with the fields read
by search_single_director (src/search/tmdb.py lines 152-164).  The
popularity score is modelled as an integer: only its ordering matters. -/
structure CrewCredit where
  job : String
  title : String
  popularity : Int
  release_date : String
  vote_average : Int
deriving DecidableEq

/-- The filter of src/search/tmdb.py lines 152-164: keep crew entries whose
job is Director and whose title is non-empty. -/
def directed_movies (crew : List CrewCredit) : List CrewCredit :=
  crew.filter (fun m => m.job == "Director" && m.title != "")

/-- Stable insertion used to model list.sort(key=popularity, reverse=True)
at src/search/tmdb.py line 170: a later element is placed after every
already-placed element with a greater or equal score, giving the
descending, stable order Python guarantees. -/
def insertByPop (a : CrewCredit) : List CrewCredit → List CrewCredit
  | [] => [a]
  | b :: l => if a.popularity ≤ b.popularity then b :: insertByPop a l else a :: b :: l

/-- Stable sort by popularity, descending (src/search/tmdb.py line 170). -/
def sort_by_popularity (l : List CrewCredit) : List CrewCredit :=
  l.foldl (fun acc a => insertByPop a acc) []

/-- search_single_director from src/search/tmdb.py lines 51-187, with the
network and the tmdbv3api record probing abstracted into a credits oracle:
none models every failure path of the function (person not found, no id,
credits fetch failure), all of which return []; some crew is a successful
lookup.  On success: filter directing credits, sort by popularity
descending, take the limit, return the titles. -/
def search_single_director (credits : String → Option (List CrewCredit))
    (director_name : String) (limit : Nat) : List String :=
  match credits director_name with
  | none => []
  | some crew =>
    ((sort_by_popularity (directed_movies crew)).take limit).map (fun m => m.title)

/-- The per-director share computed at src/search/tmdb.py line 221:
max(1, limit // director_count) when more than one director, else limit. -/
def movies_per_director (limit : Nat) (director_count : Nat) : Nat :=
  if 1 < director_count then max 1 (limit / director_count) else limit

/-- current_movie_title.lower().strip() (src/search/tmdb.py line 230). -/
def lowerStrip (s : String) : String :=
  pyStripStr (pyLower s)

/-- The exclusion test of src/search/tmdb.py lines 240-244, applied to a
candidate: the lowered-and-stripped candidate equals, contains, or is
contained in the lowered-and-stripped current title. -/
def title_matches_current (ctLower : String) (m : String) : Bool :=
  let mLower := lowerStrip m
  mLower == ctLower || isSubstring ctLower.data mLower.data
    || isSubstring mLower.data ctLower.data

/-- The merge loop of src/search/tmdb.py lines 228-248: walk the
concatenated candidates; skip a candidate already in seen (exact string
membership, since seen stores the original-case titles); skip a candidate
matching the current title when the lowered current title is non-empty;
otherwise keep it and record it in seen. -/
def dedup_exclude_go (ctLower : String) : List String → List String → List String
  | [], _ => []
  | m :: rest, seen =>
    if seen.contains m then
      dedup_exclude_go ctLower rest seen
    else if (ctLower != "") && title_matches_current ctLower m then
      dedup_exclude_go ctLower rest seen
    else
      m :: dedup_exclude_go ctLower rest (m :: seen)

/-- The deduplicate-and-exclude step of get_director_popular_movies
(src/search/tmdb.py lines 227-248). -/
def dedup_exclude (current_movie_title : String) (all_movies : List String) :
    List String :=
  dedup_exclude_go (lowerStrip current_movie_title) all_movies []

/-- get_director_popular_movies from src/search/tmdb.py lines 190-264, with
the TMDb client abstracted into the credits oracle and the module-level
api-key state into the hasApiKey flag: no key gives []; otherwise parse the
directors, compute the per-director share, concatenate the per-director
results in order, deduplicate and exclude, and truncate to the limit. -/
def get_director_popular_movies (credits : String → Option (List CrewCredit))
    (hasApiKey : Bool) (director_name : String) (current_movie_title : String)
    (limit : Nat) : List String :=
  if !hasApiKey then []
  else
    let directors := parse_multiple_directors director_name
    let share := movies_per_director limit directors.length
    let all_movies := directors.flatMap (fun d => search_single_director credits d share)
    (dedup_exclude current_movie_title all_movies).take limit

/-- format_related_films from src/search/tmdb.py lines 267-271. -/
def format_related_films (movies : List String) : String :=
  if movies.isEmpty then "" else String.intercalate (" | ") movies

/-! ## src/core/processor.py

The file-update driver update_csv_with_trailers is modelled as a function
from an environment (the parsed file and the outward collaborators) and a
configuration to a result record describing the externally visible
behaviour of the run: how it aborted, which network calls it issued,
what it wrote, and which summary counts it reported. -/

/-- The run(file, ...) configuration surface used by the driver
(src/core/processor.py lines 14-15).  delay and verbose only affect timing
and printing and are omitted. -/
structure Config where
  dry_run : Bool
  force : Bool
  include_related : Bool

/-- The world the driver interacts with: the input file (already parsed
into header and rows; the delimiter only affects the byte syntax of the
table), the TMDb credential and connectivity, the answers the user would
give to the two interactive prompts, and the per-row results the two
search adapters would return (indexed by row number). -/
structure Env where
  fileExists : Bool
  header : List String
  rows : List (List String)
  apiKeyPresent : Bool
  tmdbTestOk : Bool
  yesTrailer : Bool
  yesRelated : Bool
  youtubeResult : Nat → Option String
  relatedResult : Nat → List String

/-- How a run of the driver ends with sys.exit(1): the missing-file check
(line 19), the missing-required-columns report of lines 63-66 (carrying
the missing role names and the available headers it prints), or the
catch-all except Exception handler of lines 228-230. -/
inductive AbortKind where
  | fileNotFound
  | missingColumns (missing : List String) (available : List String)
  | unexpected
deriving DecidableEq

/-- Externally visible outcome of a run.  tmdbTestCall records whether
test_tmdb_connection issued its network request (it performs a person
search whenever an API key is configured, src/search/tmdb.py lines
274-284); adapterCalls counts the per-row search_youtube and
get_director_popular_movies invocations; written is the header and rows
written back to the file (none when no write happens, in which case the
file bytes are unchanged); summary is the reported
(total, processed, skipped) counts, none when the run aborts before the
summary. -/
structure RunResult where
  abort : Option AbortKind
  tmdbTestCall : Bool
  adapterCalls : Nat
  written : Option (List String × List (List String))
  summary : Option (Nat × Nat × Nat)

/-- Accumulator of the row loop (src/core/processor.py lines 119-193). -/
structure LoopState where
  outRows : List (List String)
  processed : Nat
  skipped : Nat
  calls : Nat

/-- Truthiness of cell and cell.strip(): true exactly when the cell has a
non-whitespace character (used at src/core/processor.py lines 139-141). -/
def pyTruthyStrip (s : String) : Bool :=
  !(pyStrip s.data).isEmpty

/-- while len(row) <= max_col: row.append("") at src/core/processor.py
lines 125-126. -/
def padRow (row : List String) (maxCol : Nat) : List String :=
  row ++ List.replicate (maxCol + 1 - row.length) ""

/-- One iteration of the row loop, src/core/processor.py lines 119-193:
pad the row; skip when title, director or year is the empty string; decide
needs_trailer and needs_related from blank cells; skip when neither is
needed; in dry-run mode count the row as processed without any adapter
call or row change; otherwise invoke the needed adapters (counted in
calls), write their results (or the empty string) into the row, and count
the row as processed. -/
def processRow (cfg : Config) (env : Env) (includeRelated : Bool)
    (tc dc yc trc : Nat) (rc : Option Nat) (st : LoopState)
    (iRow : Nat × List String) : LoopState :=
  let maxCol0 := max (max (max tc dc) yc) trc
  let maxCol :=
    match rc with
    | some r => if includeRelated then max maxCol0 r else maxCol0
    | none => maxCol0
  let row := padRow iRow.2 maxCol
  let movie_title := row.getD tc ""
  let movie_director := row.getD dc ""
  let movie_year := row.getD yc ""
  if movie_title == "" || movie_director == "" || movie_year == "" then
    ⟨st.outRows ++ [row], st.processed, st.skipped + 1, st.calls⟩
  else
    let needs_trailer := !(pyTruthyStrip (row.getD trc ""))
    let needs_related := includeRelated &&
      (match rc with
       | some r => !(pyTruthyStrip (row.getD r ""))
       | none => false)
    if !needs_trailer && !needs_related then
      ⟨st.outRows ++ [row], st.processed, st.skipped + 1, st.calls⟩
    else if cfg.dry_run then
      ⟨st.outRows ++ [row], st.processed + 1, st.skipped, st.calls⟩
    else
      let row1 := if needs_trailer then row.set trc ((env.youtubeResult iRow.1).getD "") else row
      let row2 :=
        if needs_related then
          match rc with
          | some r => row1.set r (format_related_films (env.relatedResult iRow.1))
          | none => row1
        else row1
      let newCalls := (if needs_trailer then 1 else 0) + (if needs_related then 1 else 0)
      ⟨st.outRows ++ [row2], st.processed + 1, st.skipped, st.calls + newCalls⟩

/-- The whole row loop over the enumerated rows. -/
def runLoop (cfg : Config) (env : Env) (includeRelated : Bool)
    (tc dc yc trc : Nat) (rc : Option Nat) (rows : List (List String)) : LoopState :=
  rows.enum.foldl (processRow cfg env includeRelated tc dc yc trc rc) ⟨[], 0, 0, 0⟩

/-- The tail of the driver after the column setup: run the loop, then write
the file back unless in dry-run mode, and report the summary counts
(src/core/processor.py lines 111-217). -/
def afterColumns (cfg : Config) (env : Env) (tmdbCall : Bool) (includeRelated : Bool)
    (tc dc yc trc : Nat) (rc : Option Nat) (header : List String)
    (rows : List (List String)) : RunResult :=
  let st := runLoop cfg env includeRelated tc dc yc trc rc rows
  ⟨none, tmdbCall, st.calls,
   if cfg.dry_run then none else some (header, st.outRows),
   some (rows.length, st.processed, st.skipped)⟩

/-- The related-films column setup of src/core/processor.py lines 84-98:
when related films are enabled and no such column exists, ask (unless
force or dry-run); a declined prompt disables related films, otherwise the
column is appended and every row padded. -/
def afterRelated (cfg : Config) (env : Env) (tmdbCall : Bool) (includeRelated : Bool)
    (tc dc yc trc : Nat) (relOpt : Option Nat) (header : List String)
    (rows : List (List String)) : RunResult :=
  if includeRelated && relOpt.isNone then
    if !cfg.force && !cfg.dry_run && !env.yesRelated then
      afterColumns cfg env tmdbCall false tc dc yc trc relOpt header rows
    else
      afterColumns cfg env tmdbCall true tc dc yc trc (some header.length)
        (header ++ ["Related films"]) (rows.map (fun r => r ++ [""]))
  else
    afterColumns cfg env tmdbCall includeRelated tc dc yc trc relOpt header rows

/-- The role names reported missing by src/core/processor.py lines 55-61. -/
def missingOf (t d y : Option Nat) : List String :=
  (if t.isNone then ["title"] else []) ++ (if d.isNone then ["director"] else [])
    ++ (if y.isNone then ["year"] else [])

/-- The part of the driver after the (would-be) five-way unpack of the
column indices: validate the required roles (lines 54-66, aborting with
the missing roles and the available headers), then the trailer column
setup of lines 68-82 (a declined prompt returns without writing), then the
related-films setup and the loop. -/
def afterUnpack (cfg : Config) (env : Env) (tmdbCall : Bool) (includeRelated : Bool)
    (cols : Option Nat × Option Nat × Option Nat × Option Nat × Option Nat) : RunResult :=
  match cols with
  | (some tc, some dc, some yc, trOpt, relOpt) =>
    match trOpt with
    | some trc =>
      afterRelated cfg env tmdbCall includeRelated tc dc yc trc relOpt env.header env.rows
    | none =>
      if !cfg.force && !cfg.dry_run && !env.yesTrailer then
        ⟨none, tmdbCall, 0, none, none⟩
      else
        afterRelated cfg env tmdbCall includeRelated tc dc yc env.header.length relOpt
          (env.header ++ ["Trailer"]) (env.rows.map (fun r => r ++ [""]))
  | (t, d, y, _, _) =>
    ⟨some (AbortKind.missingColumns (missingOf t d y) env.header), tmdbCall, 0, none, none⟩

/-- update_csv_with_trailers from src/core/processor.py lines 14-230.
Control flow of the source: the missing-file check exits first; then, when
related films are requested, test_tmdb_connection runs (issuing its
network request whenever an API key is configured — this happens before
the dry-run flag is ever consulted) and a failed test disables related
films; then, inside the try block, the header is parsed and line 52
unpacks the return value of find_column_indices into five names.  Because
that function returns four values, the unpack is modelled with unpack5;
its failure (a ValueError) is caught by the except Exception handler of
lines 228-230, which exits with the generic unexpected-error message. -/
def update_csv_with_trailers (env : Env) (cfg : Config) : RunResult :=
  if !env.fileExists then
    ⟨some AbortKind.fileNotFound, false, 0, none, none⟩
  else
    let tmdbCall := cfg.include_related && env.apiKeyPresent
    let includeRelated := cfg.include_related && env.apiKeyPresent && env.tmdbTestOk
    match unpack5 (find_column_indices_list env.header) with
    | none => ⟨some AbortKind.unexpected, tmdbCall, 0, none, none⟩
    | some cols => afterUnpack cfg env tmdbCall includeRelated cols

/-! ## Predicates about assigned column roles -/

/-- Every index the option assigns is below the bound (the scanning loop
only ever stores already-visited positions). -/
def OptBelow (o : Option Nat) (i : Nat) : Prop :=
  ∀ k, o = some k → k < i

/-- Two optional indices never assign the same position. -/
def OptNe (a b : Option Nat) : Prop :=
  ∀ j k, a = some j → b = some k → j ≠ k

/-- The four role indices returned by find_column_indices are pairwise
distinct wherever assigned. -/
def RolesDistinct (r : Option Nat × Option Nat × Option Nat × Option Nat) : Prop :=
  OptNe r.1 r.2.1 ∧ OptNe r.1 r.2.2.1 ∧ OptNe r.1 r.2.2.2 ∧
  OptNe r.2.1 r.2.2.1 ∧ OptNe r.2.1 r.2.2.2 ∧ OptNe r.2.2.1 r.2.2.2

/-! ## Concrete inputs used by individual claims -/

/-- A preview-mode run on an ordinary file, with related films requested
and a TMDb API key configured. -/
def envPreview : Env :=
  ⟨true, ["Title", "Director", "Year"], [["Arrival", "Denis Villeneuve", "2016"]],
   true, true, true, true, fun _ => none, fun _ => []⟩

/-- The configuration of a preview run: dry_run set, related films on. -/
def cfgPreview : Config := ⟨true, false, true⟩

/-- A live run on a file whose every row already has title, director,
year, a non-blank trailer cell and a non-blank related-films cell. -/
def envFull : Env :=
  ⟨true, ["Title", "Director", "Year", "Trailer", "Related films"],
   [["Arrival", "Denis Villeneuve", "2016",
     "https://www.youtube.com/watch?v=aaaaaaaaaaa", "Dune | Sicario"]],
   true, true, true, true, fun _ => none, fun _ => []⟩

/-- A live, forced run configuration with related films on. -/
def cfgFull : Config := ⟨false, true, true⟩

/-- A file whose header contains none of the required roles. -/
def envNoRoles : Env :=
  ⟨true, ["Foo", "Bar"], [["a", "b"]], false, false, true, true,
   fun _ => none, fun _ => []⟩

/-- A plain live run configuration without related films. -/
def cfgNoRoles : Config := ⟨false, false, false⟩

/-! ## Helper lemmas -/

/-- find_column_indices always yields four values, so the five-name unpack
performed by its caller never succeeds. -/
theorem unpack5_roleList (header : List String) :
    unpack5 (find_column_indices_list header) = none := rfl

/-- Whenever the input file exists, the run reaches the five-way unpack of
the four-tuple returned by find_column_indices, and therefore ends in the
generic unexpected-error abort with no write, no adapter call, and no
summary; the TMDb connectivity call has already been issued exactly when
related films were requested and an API key is configured. -/
theorem run_hits_unpack (env : Env) (cfg : Config) (hf : env.fileExists = true) :
    update_csv_with_trailers env cfg =
      ⟨some AbortKind.unexpected, cfg.include_related && env.apiKeyPresent,
       0, none, none⟩ := by
  unfold update_csv_with_trailers
  rw [hf]
  simp only [Bool.not_true, Bool.false_eq_true, if_false, unpack5_roleList]

/-- Members of the merge-loop output were not in the seen accumulator. -/
theorem dedup_go_not_mem (ctL : String) :
    ∀ (l seen : List String) (x : String),
      x ∈ dedup_exclude_go ctL l seen → x ∉ seen := by
  intro l
  induction l with
  | nil => intro seen x hx; simp [dedup_exclude_go] at hx
  | cons m rest ih =>
    intro seen x hx
    rw [dedup_exclude_go] at hx
    by_cases h1 : seen.contains m = true
    · rw [if_pos h1] at hx
      exact ih seen x hx
    · rw [if_neg h1] at hx
      by_cases h2 : ((ctL != "") && title_matches_current ctL m) = true
      · rw [if_pos h2] at hx
        exact ih seen x hx
      · rw [if_neg h2] at hx
        rcases List.mem_cons.mp hx with rfl | hx2
        · simpa using h1
        · intro hmem
          exact (ih (m :: seen) x hx2) (List.mem_cons_of_mem m hmem)

/-- The merge-loop output has no duplicate (under exact string equality). -/
theorem dedup_go_nodup (ctL : String) :
    ∀ (l seen : List String), (dedup_exclude_go ctL l seen).Nodup := by
  intro l
  induction l with
  | nil => intro seen; simp [dedup_exclude_go]
  | cons m rest ih =>
    intro seen
    rw [dedup_exclude_go]
    by_cases h1 : seen.contains m = true
    · rw [if_pos h1]; exact ih seen
    · rw [if_neg h1]
      by_cases h2 : ((ctL != "") && title_matches_current ctL m) = true
      · rw [if_pos h2]; exact ih seen
      · rw [if_neg h2]
        refine List.nodup_cons.mpr ⟨?_, ih (m :: seen)⟩
        intro hmem
        exact (dedup_go_not_mem ctL rest (m :: seen) m hmem) (List.mem_cons_self m seen)

/-- The merge-loop output is a sublist of its input: order is preserved
and every kept element is an occurrence from the input. -/
theorem dedup_go_sublist (ctL : String) :
    ∀ (l seen : List String), List.Sublist (dedup_exclude_go ctL l seen) l := by
  intro l
  induction l with
  | nil => intro seen; simp [dedup_exclude_go]
  | cons m rest ih =>
    intro seen
    rw [dedup_exclude_go]
    by_cases h1 : seen.contains m = true
    · rw [if_pos h1]; exact List.Sublist.cons m (ih seen)
    · rw [if_neg h1]
      by_cases h2 : ((ctL != "") && title_matches_current ctL m) = true
      · rw [if_pos h2]; exact List.Sublist.cons m (ih seen)
      · rw [if_neg h2]; exact List.Sublist.cons₂ m (ih (m :: seen))

/-- When the lowered-and-stripped current title is non-empty, every member
of the merge-loop output fails the current-title match test. -/
theorem dedup_go_excludes (ctL : String) (hct : ctL ≠ "") :
    ∀ (l seen : List String) (m : String),
      m ∈ dedup_exclude_go ctL l seen → title_matches_current ctL m = false := by
  intro l
  induction l with
  | nil => intro seen m hm; simp [dedup_exclude_go] at hm
  | cons a rest ih =>
    intro seen m hm
    rw [dedup_exclude_go] at hm
    by_cases h1 : seen.contains a = true
    · rw [if_pos h1] at hm
      exact ih seen m hm
    · rw [if_neg h1] at hm
      by_cases h2 : ((ctL != "") && title_matches_current ctL a) = true
      · rw [if_pos h2] at hm
        exact ih seen m hm
      · rw [if_neg h2] at hm
        rcases List.mem_cons.mp hm with rfl | hm2
        · have hne : (ctL != "") = true := by simpa using hct
          rw [hne, Bool.true_and] at h2
          simpa using h2
        · exact ih (a :: seen) m hm2

/-! ## Claim C3 -/

/-- C3 counterexample: the claim says the merge deduplicates
case-insensitively, collapsing the candidate list Inception / inception /
Interstellar to two titles.  The code (src/search/tmdb.py lines 232-248)
tests membership in seen with the original-case strings, so the
case-variant duplicate survives. -/
theorem merge_dedup_case_sensitive_cex :
    dedup_exclude ("") ["Inception", "inception", "Interstellar"] ≠
      ["Inception", "Interstellar"] := by decide

/-- C3 (amended): the concatenated per-director results are deduplicated
under exact (case-sensitive) string equality with the first occurrence
kept — the output has no duplicate and is an in-order selection of the
input — so a title differing from an earlier one only in letter case is
retained: Inception / inception / Interstellar passes through unchanged,
while an exact repeat such as Inception / Inception / Interstellar
collapses. -/
theorem merge_dedup_exact_first_occurrence :
    (∀ (ct : String) (ms : List String),
      (dedup_exclude ct ms).Nodup ∧ List.Sublist (dedup_exclude ct ms) ms) ∧
    dedup_exclude ("") ["Inception", "inception", "Interstellar"] =
      ["Inception", "inception", "Interstellar"] ∧
    dedup_exclude ("") ["Inception", "Inception", "Interstellar"] =
      ["Inception", "Interstellar"] :=
  ⟨fun ct ms => ⟨dedup_go_nodup (lowerStrip ct) ms [],
     dedup_go_sublist (lowerStrip ct) ms []⟩,
   by decide, by decide⟩

/-- C3 witness: the amended statement at a concrete candidate list. -/
theorem merge_dedup_exact_first_occurrence_witness :
    (dedup_exclude ("Tenet") ["Inception", "Inception", "Dunkirk"]).Nodup ∧
    List.Sublist (dedup_exclude ("Tenet") ["Inception", "Inception", "Dunkirk"])
      ["Inception", "Inception", "Dunkirk"] :=
  merge_dedup_exact_first_occurrence.1 ("Tenet") ["Inception", "Inception", "Dunkirk"]

/-! ## Claim C6 -/

/-- C6 counterexample: the claim quantifies over every non-empty current
title, but the code disables the exclusion when the lowered-and-stripped
current title is empty (src/search/tmdb.py lines 230 and 240): with the
non-empty, whitespace-only current title, a candidate identical to it —
hence case-insensitively equal to it — is retained. -/
theorem exclusion_blank_current_title_cex :
    (" " : String) ≠ "" ∧ dedup_exclude (" ") [" "] = [" "] := by decide

/-- C6 (amended): for every current title whose lowered-and-stripped form
is non-empty, the merge drops every candidate whose lowered-and-stripped
form equals, contains, or is contained in the current title's (so with
current title Oppenheimer, the candidates Oppenheimer and Oppenheimer
(Director\x27s Cut) are excluded): no member of the merge output passes
the current-title match test. -/
theorem merge_excludes_current_title_matches (ct : String) (ms : List String)
    (m : String) (hct : lowerStrip ct ≠ "") (hm : m ∈ dedup_exclude ct ms) :
    title_matches_current (lowerStrip ct) m = false :=
  dedup_go_excludes (lowerStrip ct) hct ms [] m hm

/-- C6 witness: with current title Oppenheimer, the matching candidates
Oppenheimer and Oppenheimer (Director\x27s Cut) are dropped and only the
non-matching survivor Interstellar remains, which the theorem certifies as
failing the match test. -/
theorem merge_excludes_current_title_matches_witness :
    title_matches_current (lowerStrip ("Oppenheimer")) ("Interstellar") = false :=
  merge_excludes_current_title_matches ("Oppenheimer")
    ["Oppenheimer", "Oppenheimer (Director\x27s Cut)", "Interstellar"]
    ("Interstellar") (by decide) (by decide)

/-! ## Claim C2 -/

/-- C2: the claim states that find_column_indices returns a role map
covering all five roles, with related-films matched by the keywords
related and similar.  The source (src/csv_handler/parser.py lines 20-42)
has no related-films role at all: it returns a four-tuple, so the
five-name unpack its only caller performs on it (src/core/processor.py
line 52) fails on every header.  This theorem evaluates the code at the
failing inputs: the role sequence always has four entries, never five. -/
theorem find_column_indices_returns_four_roles (header : List String) :
    (find_column_indices_list header).length = 4 ∧
    unpack5 (find_column_indices_list header) = none :=
  ⟨rfl, unpack5_roleList header⟩

/-- C2 witness: the four-role return and the failing unpack at a concrete
header carrying all five spec roles. -/
theorem find_column_indices_returns_four_roles_witness :
    (find_column_indices_list
        ["Title", "Director", "Year", "Trailer", "Related films"]).length = 4 ∧
    unpack5 (find_column_indices_list
        ["Title", "Director", "Year", "Trailer", "Related films"]) = none :=
  find_column_indices_returns_four_roles
    ["Title", "Director", "Year", "Trailer", "Related films"]

/-! ## Claim C1 -/

/-- C1 counterexample: the claim says a preview run issues no network
calls, for every configuration.  In the code, test_tmdb_connection runs
before the dry-run flag is ever consulted and performs a TMDb person
search whenever related films are requested and an API key is configured
(src/core/processor.py lines 29-36, src/search/tmdb.py lines 274-284), so
this preview run issues a network call. -/
theorem preview_issues_connectivity_call_cex :
    cfgPreview.dry_run = true ∧
    (update_csv_with_trailers envPreview cfgPreview).tmdbTestCall = true :=
  ⟨rfl, by rw [run_hits_unpack envPreview cfgPreview rfl]; rfl⟩

/-- C1 (amended): for every input file and configuration, a preview
(dry-run) run writes no file — the file bytes are unchanged — and issues
no per-row search (trailer or related-films) network call; however the
TMDb connectivity-test network call is issued exactly when the file
exists, related films are requested, and an API key is configured. -/
theorem preview_no_write_no_search_calls (env : Env) (cfg : Config)
    (_hdry : cfg.dry_run = true) :
    (update_csv_with_trailers env cfg).written = none ∧
    (update_csv_with_trailers env cfg).adapterCalls = 0 ∧
    (update_csv_with_trailers env cfg).tmdbTestCall =
      (env.fileExists && (cfg.include_related && env.apiKeyPresent)) := by
  by_cases hf : env.fileExists = true
  · rw [run_hits_unpack env cfg hf, hf]
    exact ⟨rfl, rfl, rfl⟩
  · have hf' : env.fileExists = false := by
      revert hf; cases env.fileExists <;> simp
    unfold update_csv_with_trailers
    rw [hf']
    exact ⟨rfl, rfl, rfl⟩

/-- C1 witness: the amended statement at the concrete preview run. -/
theorem preview_no_write_no_search_calls_witness :
    (update_csv_with_trailers envPreview cfgPreview).written = none ∧
    (update_csv_with_trailers envPreview cfgPreview).adapterCalls = 0 ∧
    (update_csv_with_trailers envPreview cfgPreview).tmdbTestCall =
      (envPreview.fileExists && (cfgPreview.include_related && envPreview.apiKeyPresent)) :=
  preview_no_write_no_search_calls envPreview cfgPreview rfl

/-! ## Claim C4 -/

/-- C4: the claim says a run on a fully populated file changes nothing and
reports zero processed and N skipped.  In the code the five-name unpack at
src/core/processor.py line 52 raises ValueError before any row is
examined, the except Exception handler exits, and no summary is ever
reported; the file is indeed not rewritten, but the zero-processed /
N-skipped report the claim promises never happens.  This theorem evaluates
the run on a concrete fully populated file. -/
theorem full_file_run_crashes_before_summary :
    (update_csv_with_trailers envFull cfgFull).abort = some AbortKind.unexpected ∧
    (update_csv_with_trailers envFull cfgFull).summary = none ∧
    (update_csv_with_trailers envFull cfgFull).written = none := by
  rw [run_hits_unpack envFull cfgFull rfl]
  exact ⟨rfl, rfl, rfl⟩

/-! ## Claim C7 -/

/-- C7: the claim says a header lacking title, director or year makes the
run abort as a fatal configuration error listing the available headers.
The validation of src/core/processor.py lines 54-66 would do exactly that,
but it sits after the five-name unpack of line 52, which raises ValueError
on every header; the run therefore aborts through the generic
unexpected-error handler without ever listing the available headers.  The
first two conjuncts evaluate the run on a concrete header with no required
roles; the last shows the intended validation branch (reached only if the
unpack produced five values, which it never does) would have reported the
missing roles together with the available headers. -/
theorem missing_columns_report_unreachable :
    (update_csv_with_trailers envNoRoles cfgNoRoles).abort = some AbortKind.unexpected ∧
    (update_csv_with_trailers envNoRoles cfgNoRoles).written = none ∧
    afterUnpack cfgNoRoles envNoRoles false false (none, none, none, none, none) =
      ⟨some (AbortKind.missingColumns ["title", "director", "year"] ["Foo", "Bar"]),
       false, 0, none, none⟩ := by
  rw [run_hits_unpack envNoRoles cfgNoRoles rfl]
  exact ⟨rfl, rfl, rfl⟩

/-! ## Claim C5 -/

/-- Every token kept by parse_multiple_directors has length greater than
one: the final filter of src/search/tmdb.py line 45 discards shorter
tokens. -/
theorem parse_directors_min_length (s : String) :
    (parse_multiple_directors s).all (fun t => decide (1 < t.length)) = true := by
  simp only [parse_multiple_directors]
  split
  · rfl
  · rw [List.all_eq_true]
    intro t ht
    rcases List.mem_map.mp ht with ⟨n, hn, rfl⟩
    have hp := (List.mem_filter.mp hn).2
    simpa [String.length] using hp

/-- C5: director splitting normalizes ampersand, comma, slash, plus and
the word and to one delimiter, splits, trims, and discards tokens of
length at most one; the three quoted Coen-brothers spellings each yield
exactly Joel Coen followed by Ethan Coen, and every returned token has
length above one. -/
theorem parse_directors_examples_and_min_length :
    parse_multiple_directors ("Joel Coen & Ethan Coen") = ["Joel Coen", "Ethan Coen"] ∧
    parse_multiple_directors ("Joel Coen, Ethan Coen") = ["Joel Coen", "Ethan Coen"] ∧
    parse_multiple_directors ("Joel Coen and Ethan Coen") = ["Joel Coen", "Ethan Coen"] ∧
    ∀ (s : String),
      (parse_multiple_directors s).all (fun t => decide (1 < t.length)) = true :=
  ⟨by decide, by decide, by decide, parse_directors_min_length⟩

/-- C5 witness: the universally quantified part at a concrete input with a
separated single-character token, which the splitting discards. -/
theorem parse_directors_examples_and_min_length_witness :
    (parse_multiple_directors ("J & Ethan Coen")).all
      (fun t => decide (1 < t.length)) = true :=
  parse_directors_examples_and_min_length.2.2.2 ("J & Ethan Coen")

/-! ## Claim C8 -/

/-- A token accepted by take_id has exactly 11 characters. -/
theorem take_id_length : ∀ (cs vid : List Char), take_id cs = some vid →
    vid.length = 11 := by
  intro cs vid h
  simp only [take_id] at h
  by_cases hc : ((cs.take 11).length == 11 && (cs.take 11).all (fun c => !(isPyWs c))) = true
  · rw [if_pos hc] at h
    cases h
    have h1 := (Bool.and_eq_true .. |>.mp hc).1
    simpa using h1
  · rw [if_neg hc] at h
    cases h

/-- Every identifier the scan returns has exactly 11 characters. -/
theorem find_video_id_length : ∀ (cs vid : List Char),
    find_video_id cs = some vid → vid.length = 11 := by
  intro cs
  induction cs with
  | nil => intro vid h; simp [find_video_id] at h
  | cons c rest ih =>
    intro vid h
    rw [find_video_id] at h
    by_cases hp : watchMarker.isPrefixOf (c :: rest) = true
    · rw [if_pos hp] at h
      cases ht : take_id ((c :: rest).drop 8) with
      | some v =>
        rw [ht] at h
        cases h
        exact take_id_length _ _ ht
      | none =>
        rw [ht] at h
        exact ih vid h
    · rw [if_neg hp] at h
      exact ih vid h

/-- C8: for every query (i.e. for every outcome of the single outbound
request, which is the only query-dependent effect), the trailer search
adapter returns none on network failure or timeout (a RequestException,
modelled by exn), on a non-success HTTP status (400 or above, the statuses
raise_for_status converts into a RequestException), and when no
video-identifier pattern matches; it never raises — the embedding is a
total function into Option.  When it returns a result, the result is the
first matched identifier, which has exactly 11 characters, rendered as a
canonical watch URL. -/
theorem search_youtube_error_paths_and_first_id :
    search_youtube HttpResult.exn = none ∧
    (∀ (status : Nat) (body : List Char), 400 ≤ status →
      search_youtube (HttpResult.ok status body) = none) ∧
    (∀ (status : Nat) (body : List Char), status < 400 → find_video_id body = none →
      search_youtube (HttpResult.ok status body) = none) ∧
    (∀ (status : Nat) (body : List Char) (vid : List Char), status < 400 →
      find_video_id body = some vid →
      search_youtube (HttpResult.ok status body) =
        some (String.mk ("https://www.youtube.com/watch?v=".data ++ vid)) ∧
      vid.length = 11) := by
  refine ⟨rfl, ?_, ?_, ?_⟩
  · intro s b h
    simp [search_youtube, if_pos h]
  · intro s b h hn
    simp [search_youtube, Nat.not_le.mpr h, hn]
  · intro s b vid h hv
    refine ⟨?_, find_video_id_length b vid hv⟩
    simp [search_youtube, Nat.not_le.mpr h, hv]

/-- C8 witness: a successful response whose body embeds a marker followed
by an 11-character token produces the canonical watch URL. -/
theorem search_youtube_witness :
    search_youtube (HttpResult.ok 200 (("xx watch?v=ABCDE-12345_ yy").data)) =
      some ("https://www.youtube.com/watch?v=ABCDE-12345") :=
  ((search_youtube_error_paths_and_first_id.2.2.2 200
      (("xx watch?v=ABCDE-12345_ yy").data) (("ABCDE-12345").data)
      (by decide) (by decide)).1).trans (by decide)

/-! ## Claim C9 -/

/-- Insertion only adds the inserted element. -/
theorem mem_insertByPop (a x : CrewCredit) :
    ∀ (l : List CrewCredit), x ∈ insertByPop a l → x = a ∨ x ∈ l := by
  intro l
  induction l with
  | nil =>
    intro h
    rw [insertByPop] at h
    exact Or.inl (List.mem_singleton.mp h)
  | cons b t ih =>
    intro h
    rw [insertByPop] at h
    by_cases hc : a.popularity ≤ b.popularity
    · rw [if_pos hc] at h
      rcases List.mem_cons.mp h with rfl | h2
      · exact Or.inr (List.mem_cons_self _ _)
      · rcases ih h2 with h3 | h3
        · exact Or.inl h3
        · exact Or.inr (List.mem_cons_of_mem _ h3)
    · rw [if_neg hc] at h
      rcases List.mem_cons.mp h with rfl | h2
      · exact Or.inl rfl
      · exact Or.inr h2

/-- Insertion preserves the descending-by-popularity invariant. -/
theorem pairwise_insertByPop (a : CrewCredit) :
    ∀ (l : List CrewCredit),
      l.Pairwise (fun p q => q.popularity ≤ p.popularity) →
      (insertByPop a l).Pairwise (fun p q => q.popularity ≤ p.popularity) := by
  intro l
  induction l with
  | nil =>
    intro _
    rw [insertByPop]
    simp
  | cons b t ih =>
    intro hp
    rcases List.pairwise_cons.mp hp with ⟨hb, ht⟩
    rw [insertByPop]
    by_cases hc : a.popularity ≤ b.popularity
    · rw [if_pos hc]
      refine List.pairwise_cons.mpr ⟨?_, ih ht⟩
      intro x hx
      rcases mem_insertByPop a x t hx with rfl | h2
      · exact hc
      · exact hb x h2
    · rw [if_neg hc]
      refine List.pairwise_cons.mpr ⟨?_, hp⟩
      intro x hx
      rcases List.mem_cons.mp hx with rfl | h2
      · exact (not_le.mp hc).le
      · exact le_trans (hb x h2) (not_le.mp hc).le

/-- The insertion fold preserves the descending invariant. -/
theorem pairwise_sort_fold :
    ∀ (l acc : List CrewCredit),
      acc.Pairwise (fun p q => q.popularity ≤ p.popularity) →
      (l.foldl (fun acc a => insertByPop a acc) acc).Pairwise
        (fun p q => q.popularity ≤ p.popularity) := by
  intro l
  induction l with
  | nil => intro acc h; exact h
  | cons a t ih =>
    intro acc h
    exact ih (insertByPop a acc) (pairwise_insertByPop a acc h)

/-- C9: the directing credits are sorted by popularity descending (every
sorted list is pairwise ordered with later scores at most earlier ones),
the per-director share is max(1, limit / director_count) when more than
one director is present and limit when there is exactly one, and the
per-director lookup of get_director_popular_movies asks each parsed
director for exactly that share before merging. -/
theorem per_director_share_and_popularity_sort :
    (∀ (limit n : Nat), 1 < n → movies_per_director limit n = max 1 (limit / n)) ∧
    (∀ (limit : Nat), movies_per_director limit 1 = limit) ∧
    (∀ (l : List CrewCredit),
      (sort_by_popularity l).Pairwise (fun p q => q.popularity ≤ p.popularity)) ∧
    (∀ (credits : String → Option (List CrewCredit)) (dn ct : String) (limit : Nat),
      get_director_popular_movies credits true dn ct limit =
        (dedup_exclude ct ((parse_multiple_directors dn).flatMap
          (fun d => search_single_director credits d
            (movies_per_director limit (parse_multiple_directors dn).length)))).take
          limit) := by
  refine ⟨?_, ?_, ?_, ?_⟩
  · intro limit n h
    unfold movies_per_director
    rw [if_pos h]
  · intro limit
    rfl
  · intro l
    exact pairwise_sort_fold l [] List.Pairwise.nil
  · intro credits dn ct limit
    rfl

/-- C9 witness: the share at three slots split between the two Coens is
max(1, 3 / 2) = 1, and a concrete credit list is sorted descending. -/
theorem per_director_share_witness :
    movies_per_director 3 2 = 1 ∧
    sort_by_popularity
      [⟨"Director", "A", 2, "", 0⟩, ⟨"Director", "B", 9, "", 0⟩] =
      [⟨"Director", "B", 9, "", 0⟩, ⟨"Director", "A", 2, "", 0⟩] :=
  ⟨(per_director_share_and_popularity_sort.1 3 2 (by decide)).trans (by decide),
   by decide⟩

/-! ## Claim C10 -/

/-- A bound below the next index stays a bound one step later. -/
theorem optBelow_succ {o : Option Nat} {i : Nat} (h : OptBelow o i) :
    OptBelow o (i + 1) :=
  fun k hk => Nat.lt_succ_of_lt (h k hk)

/-- The freshly assigned index is below the next index. -/
theorem optBelow_some (i : Nat) : OptBelow (some i) (i + 1) :=
  fun k hk => by cases hk; exact Nat.lt_succ_self i

/-- An unassigned role is vacuously bounded. -/
theorem optBelow_none (i : Nat) : OptBelow none i :=
  fun _ hk => by cases hk

/-- A role bounded by the current index differs from the fresh index. -/
theorem optNe_fresh_right {a : Option Nat} {i : Nat} (h : OptBelow a i) :
    OptNe a (some i) :=
  fun j k hj hk => by cases hk; exact Nat.ne_of_lt (h j hj)

/-- The fresh index differs from any role bounded by the current index. -/
theorem optNe_fresh_left {b : Option Nat} {i : Nat} (h : OptBelow b i) :
    OptNe (some i) b :=
  fun j k hj hk => by cases hj; exact (Nat.ne_of_lt (h k hk)).symm

/-- Unassigned roles are vacuously distinct from anything. -/
theorem optNe_none_left (b : Option Nat) : OptNe none b :=
  fun _ _ hj _ => by cases hj

/-- Invariant of the scanning loop: starting from bounded, pairwise
distinct role indices, it ends with pairwise distinct role indices. -/
theorem fci_go_distinct (rest : List String) :
    ∀ (i : Nat) (t d y tr : Option Nat),
      OptBelow t i → OptBelow d i → OptBelow y i → OptBelow tr i →
      OptNe t d → OptNe t y → OptNe t tr → OptNe d y → OptNe d tr → OptNe y tr →
      RolesDistinct (fci_go i rest t d y tr) := by
  induction rest with
  | nil =>
    intro i t d y tr _ _ _ _ h1 h2 h3 h4 h5 h6
    exact ⟨h1, h2, h3, h4, h5, h6⟩
  | cons c cs ih =>
    intro i t d y tr ht hd hy htr h1 h2 h3 h4 h5 h6
    simp only [fci_go]
    split_ifs with hA hB hC hD
    · exact ih (i + 1) (some i) d y tr (optBelow_some i) (optBelow_succ hd)
        (optBelow_succ hy) (optBelow_succ htr)
        (optNe_fresh_left hd) (optNe_fresh_left hy) (optNe_fresh_left htr) h4 h5 h6
    · exact ih (i + 1) t (some i) y tr (optBelow_succ ht) (optBelow_some i)
        (optBelow_succ hy) (optBelow_succ htr)
        (optNe_fresh_right ht) h2 h3 (optNe_fresh_left hy) (optNe_fresh_left htr) h6
    · exact ih (i + 1) t d (some i) tr (optBelow_succ ht) (optBelow_succ hd)
        (optBelow_some i) (optBelow_succ htr)
        h1 (optNe_fresh_right ht) h3 (optNe_fresh_right hd) h5 (optNe_fresh_left htr)
    · exact ih (i + 1) t d y (some i) (optBelow_succ ht) (optBelow_succ hd)
        (optBelow_succ hy) (optBelow_some i)
        h1 h2 (optNe_fresh_right ht) h4 (optNe_fresh_right hd) (optNe_fresh_right hy)
    · exact ih (i + 1) t d y tr (optBelow_succ ht) (optBelow_succ hd)
        (optBelow_succ hy) (optBelow_succ htr) h1 h2 h3 h4 h5 h6

/-- C10: for every header row, the indices find_column_indices assigns are
pairwise distinct — no physical column is mapped to two roles (the if/elif
chain assigns each scanned column to at most one role, and each role,
holding a single optional index, receives at most one column). -/
theorem column_roles_pairwise_distinct (header : List String) :
    RolesDistinct (find_column_indices header) :=
  fci_go_distinct header 0 none none none none
    (optBelow_none 0) (optBelow_none 0) (optBelow_none 0) (optBelow_none 0)
    (optNe_none_left none) (optNe_none_left none) (optNe_none_left none)
    (optNe_none_left none) (optNe_none_left none) (optNe_none_left none)

/-- C10 witness: on a concrete header the title and director roles land on
the distinct columns 0 and 1, certified through the theorem. -/
theorem column_roles_pairwise_distinct_witness :
    (find_column_indices ["Title", "Director", "Year", "Trailer"]).1 = some 0 ∧
    (find_column_indices ["Title", "Director", "Year", "Trailer"]).2.1 = some 1 ∧
    (0 : Nat) ≠ 1 :=
  ⟨by decide, by decide,
   (column_roles_pairwise_distinct ["Title", "Director", "Year", "Trailer"]).1
     0 1 (by decide) (by decide)⟩
